import Mathlib

/-!
Verification development for the `learn-cgo` module: a shallow embedding of
the single C header `modules/learn-cgo/hello.h` together with a small model
of the C preprocessor (conditional inclusion, object-like macro definition,
file inclusion), in which the structural properties of the header are stated
and settled: the include guard, the placement of the `extern "C"` linkage
region, the declared prototypes, and the inertness of the directive-looking
text that sits inside block comments.

The header is represented as a tree of items: block comments carry their
text lines, conditional regions carry their bodies, and the remaining items
are the function declarations and the two linkage-specification braces
(`extern "C" {` and its closing `}`), which are modelled by the dedicated
markers `linkageOpen` / `linkageClose`.  Comment text is embedded line by
line, with blank lines and the original single-quote characters elided.
-/

namespace LearnCgo

/-- C types occurring in the declarations of hello.h. -/
inductive CType where
  | void
  | constCharPtr
deriving DecidableEq, Repr

/-- Syntactic parameter list of a C function declarator: `empty` models
writing `()`, `voidList` models `(void)`, and `types` an explicit list of
parameter types paired with the parameter names. -/
inductive ParamList where
  | empty
  | voidList
  | types (ps : List (CType × String))
deriving DecidableEq, Repr

/-- A C function declaration (a prototype line of the header). -/
structure FunDecl where
  name : String
  ret : CType
  params : ParamList
deriving DecidableEq, Repr

/-- Embedding of line 52 of hello.h: `void hello_from_c();`. -/
def hello_from_c : FunDecl := ⟨"hello_from_c", .void, .empty⟩

/-- Embedding of line 71 of hello.h: `void hello_from_cpp();`. -/
def hello_from_cpp : FunDecl := ⟨"hello_from_cpp", .void, .empty⟩

/-- Embedding of line 72 of hello.h: `void greet_user(const char *name);`. -/
def greet_user : FunDecl := ⟨"greet_user", .void, .types [(.constCharPtr, "name")]⟩

/-- An item of a C source file, one per syntactic element, in file order.
Conditional directives (`#if !defined(M)`, `#ifdef M`, `#endif`) are flat
items, exactly as they are lines of the file; the preprocessor model below
tracks their nesting with a skip depth.  The constructors `funDef`,
`typeDef` and `varDecl` model function bodies, type definitions and object
declarations; hello.h contains none, and the theorems about their absence
are stated over this representation. -/
inductive Item where
  | decl (f : FunDecl)
  | funDef (f : FunDecl)
  | typeDef (n : String)
  | varDecl (n : String)
  | linkageOpen
  | linkageClose
  | comment (content : List String)
  | define (m : String)
  | includeFile (f : String)
  | ifNotDefinedD (m : String)
  | ifDefinedD (m : String)
  | endifD
deriving DecidableEq, Repr

/-- Text of the block comment on lines 4-50 of hello.h (blank lines and
single-quote characters elided), including the four directive-looking lines
27-30 that are comment text, not directives. -/
def comment1 : List String :=
  [ "# Compile the C source file into an object file with Position Independent Code",
    "(PIC) gcc -fPIC -c hello.c -o hello.o",
    "# Link the object file into a shared library file (conventionally starting with",
    "lib) gcc -shared -o libhello.so hello.o # (On macOS, the output file would",
    "typically be libhello.dylib)",
    "# --- Building a Combined Library (C and C++) ---",
    "# To create a single library that contains both C and C++ code:",
    "# 1. Compile individual object files:",
    "#    gcc -fPIC -c hello.c -o hello.o",
    "#    g++ -fPIC -c hello.cpp -o helloCpp.o",
    "#",
    "# 2. Create a Static Library (.a):",
    "#    ar rcs libcommon.a hello.o helloCpp.o",
    "#",
    "# 3. Create a Shared Library (.so / .dylib):",
    "#    g++ -shared -o libcommon.dylib hello.o helloCpp.o",
    "#",
    "# Note: Use g++ for the final link of a shared library if it contains C++ code",
    "# to ensure the C++ standard library is correctly linked.",
    "#cgo LDFLAGS: -lm -L. -lcommon",
    "#include \"hello.h\"",
    "#include <math.h>",
    "#include <stdlib.h> // Required for free()",
    "Linker Recognition (-l flag): The primary reason for this convention is how",
    "compilers and linkers work. When you use the GCC linker flag -lhello in your Cgo",
    "directive, the linker automatically assumes the filename you want is libhello.so",
    "(or libhello.a for static libraries). It automatically adds the lib prefix and",
    "the appropriate extension when searching its paths.",
    "Naming Across Different Systems",
    "The convention is standard across platforms, although the file extensions",
    "differ: Linux: libname.so (and often includes version numbers, e.g.,",
    "libname.so.1.0.1). macOS (Darwin/Apple): libname.dylib. Windows: Uses a",
    "different naming system. Shared libraries are name.dll files, and they are",
    "typically accompanied by a separate \"import library\" file named libname.lib used",
    "only during the link phase." ]

/-- Text of the block comment on lines 54-66 of hello.h (blank lines and
single-quote characters elided). -/
def comment2 : List String :=
  [ "extern \"C\" specifies C-style linkage and calling conventions to allow",
    "interoperability between C and C++ code . Used in C++, ignored by C compilers",
    "(often wrapped in #ifdef __cplusplus).",
    "g++ -c hello.cpp -o helloCpp.o",
    "create a single static lib",
    "# r replaces existing files, c creates the archive if it doesnt exist, s",
    "writes an object-file index. ar rcs libcommonlib.a cpp_part.o c_part.o" ]

/-- Body of the include-guard region of hello.h (lines 2-76), parameterised
by the text of the first comment and by a list of extra items placed where
that comment sits, so that the near-duplicate copy of the header and the
hypothetical variant with a genuine self-inclusion reuse the same skeleton. -/
def hello_h_body (c1 : List String) (extra : List Item) : List Item :=
  [Item.define "learn_cgo", Item.comment c1] ++ extra ++
  [ Item.decl hello_from_c,
    Item.comment comment2,
    Item.ifDefinedD "__cplusplus",
    Item.linkageOpen,
    Item.endifD,
    Item.decl hello_from_cpp,
    Item.decl greet_user,
    Item.ifDefinedD "__cplusplus",
    Item.linkageClose,
    Item.endifD ]

/-- Embedding of hello.h: the whole file is one `#if !defined(learn_cgo)`
region (lines 1 and 78) whose body defines the guard macro and contributes
the three declarations, the two comments and the conditional `extern "C"`
wrapper braces. -/
def hello_h_items : List Item :=
  Item.ifNotDefinedD "learn_cgo" :: hello_h_body comment1 [] ++ [Item.endifD]

/-- The set of object-like macros currently defined, as a list of names. -/
abbrev MacroEnv := List String

/-- Membership of a macro name in the macro environment (`defined(m)`). -/
def isDef : MacroEnv → String → Bool
  | [], _ => false
  | x :: xs, m => x == m || isDef xs m

/-- One conditional-evaluation pass of the preprocessor over a flat item
list: `skip` is the number of enclosing conditional regions whose condition
was false.  Macro definitions extend the environment; comments are dropped
(translation phase 3 replaces them by whitespace before preprocessing);
`#include` directives are left unresolved in the output (the fueled `ppRun`
below resolves them; for files with no include directive the two agree).
An unterminated conditional region simply ends with the file; hello.h is
balanced, so this case is never exercised. -/
def ppExpand : MacroEnv → Nat → List Item → MacroEnv × List Item
  | st, _, [] => (st, [])
  | st, 0, x :: r =>
    match x with
    | Item.decl f =>
      ((ppExpand st 0 r).1, Item.decl f :: (ppExpand st 0 r).2)
    | Item.funDef f =>
      ((ppExpand st 0 r).1, Item.funDef f :: (ppExpand st 0 r).2)
    | Item.typeDef n =>
      ((ppExpand st 0 r).1, Item.typeDef n :: (ppExpand st 0 r).2)
    | Item.varDecl n =>
      ((ppExpand st 0 r).1, Item.varDecl n :: (ppExpand st 0 r).2)
    | Item.linkageOpen =>
      ((ppExpand st 0 r).1, Item.linkageOpen :: (ppExpand st 0 r).2)
    | Item.linkageClose =>
      ((ppExpand st 0 r).1, Item.linkageClose :: (ppExpand st 0 r).2)
    | Item.comment _ => ppExpand st 0 r
    | Item.define m => ppExpand (m :: st) 0 r
    | Item.includeFile f =>
      ((ppExpand st 0 r).1, Item.includeFile f :: (ppExpand st 0 r).2)
    | Item.ifNotDefinedD m => ppExpand st (if isDef st m then 1 else 0) r
    | Item.ifDefinedD m => ppExpand st (if isDef st m then 0 else 1) r
    | Item.endifD => ppExpand st 0 r
  | st, s + 1, x :: r =>
    match x with
    | Item.ifNotDefinedD _ => ppExpand st (s + 2) r
    | Item.ifDefinedD _ => ppExpand st (s + 2) r
    | Item.endifD => ppExpand st s r
    | _ => ppExpand st (s + 1) r

/-- An environment resolving file names for `#include`, as an association
list from names to item lists. -/
abbrev FileEnv := List (String × List Item)

/-- Lookup of a file name in a `FileEnv`. -/
def lookupFile : FileEnv → String → Option (List Item)
  | [], _ => none
  | (n, its) :: r, f => if n == f then some its else lookupFile r f

/-- Full preprocessing of a flat item list, resolving `#include` directives
against `env`.  `fuel` bounds the depth of nested inclusion and is consumed
only when an inclusion is performed, so the result is `none` exactly when
inclusion nests deeper than `fuel` or an included file is not in `env`.
All other items are handled as in `ppExpand`. -/
def ppRun (env : FileEnv) : Nat → MacroEnv → Nat → List Item →
    Option (MacroEnv × List Item)
  | _, st, _, [] => some (st, [])
  | fuel, st, 0, x :: r =>
    match x with
    | Item.decl f =>
      match ppRun env fuel st 0 r with
      | none => none
      | some (st2, out) => some (st2, Item.decl f :: out)
    | Item.funDef f =>
      match ppRun env fuel st 0 r with
      | none => none
      | some (st2, out) => some (st2, Item.funDef f :: out)
    | Item.typeDef n =>
      match ppRun env fuel st 0 r with
      | none => none
      | some (st2, out) => some (st2, Item.typeDef n :: out)
    | Item.varDecl n =>
      match ppRun env fuel st 0 r with
      | none => none
      | some (st2, out) => some (st2, Item.varDecl n :: out)
    | Item.linkageOpen =>
      match ppRun env fuel st 0 r with
      | none => none
      | some (st2, out) => some (st2, Item.linkageOpen :: out)
    | Item.linkageClose =>
      match ppRun env fuel st 0 r with
      | none => none
      | some (st2, out) => some (st2, Item.linkageClose :: out)
    | Item.comment _ => ppRun env fuel st 0 r
    | Item.define m => ppRun env fuel (m :: st) 0 r
    | Item.includeFile f =>
      match fuel with
      | 0 => none
      | fuel' + 1 =>
        match lookupFile env f with
        | none => none
        | some fits =>
          match ppRun env fuel' st 0 fits with
          | none => none
          | some (st1, out1) =>
            match ppRun env (fuel' + 1) st1 0 r with
            | none => none
            | some (st2, out2) => some (st2, out1 ++ out2)
    | Item.ifNotDefinedD m => ppRun env fuel st (if isDef st m then 1 else 0) r
    | Item.ifDefinedD m => ppRun env fuel st (if isDef st m then 0 else 1) r
    | Item.endifD => ppRun env fuel st 0 r
  | fuel, st, s + 1, x :: r =>
    match x with
    | Item.ifNotDefinedD _ => ppRun env fuel st (s + 2) r
    | Item.ifDefinedD _ => ppRun env fuel st (s + 2) r
    | Item.endifD => ppRun env fuel st s r
    | _ => ppRun env fuel st (s + 1) r
termination_by fuel _ _ items => (fuel, items.length)

/-- All function declarations of an item list, in order. -/
def declsOf : List Item → List FunDecl
  | [] => []
  | Item.decl f :: r => f :: declsOf r
  | _ :: r => declsOf r

/-- The function declarations lying strictly inside an `extern "C"` linkage
region of a processed item list, tracking the nesting depth `d` of the
linkage braces.  In a C++ translation unit exactly these declarations get C
linkage; a declaration outside every such region has C++ linkage and its
symbol is subject to C++ name mangling. -/
def cLinkageDecls : Nat → List Item → List FunDecl
  | _, [] => []
  | d, Item.linkageOpen :: r => cLinkageDecls (d + 1) r
  | d, Item.linkageClose :: r => cLinkageDecls (d - 1) r
  | d, Item.decl f :: r =>
    if 0 < d then f :: cLinkageDecls d r else cLinkageDecls d r
  | d, _ :: r => cLinkageDecls d r

/-- Erasure of the `extern "C"` wrapper braces from a processed item list,
leaving everything else unchanged. -/
def eraseLinkage : List Item → List Item
  | [] => []
  | Item.linkageOpen :: r => eraseLinkage r
  | Item.linkageClose :: r => eraseLinkage r
  | x :: r => x :: eraseLinkage r

/-- Whether an item list contains an `#include` directive. -/
def hasInclude : List Item → Bool
  | [] => false
  | Item.includeFile _ :: _ => true
  | _ :: r => hasInclude r

/-- All text lines carried by block comments of an item list. -/
def commentLines : List Item → List String
  | [] => []
  | Item.comment c :: r => c ++ commentLines r
  | _ :: r => commentLines r

/-- Whether an item list contains a definition (a body) for a function
named `n`. -/
def providesDef (n : String) : List Item → Bool
  | [] => false
  | Item.funDef f :: r => f.name == n || providesDef n r
  | _ :: r => providesDef n r

/-- Whether an item list contains any type definition
(struct, enum, union or typedef). -/
def hasTypeDef : List Item → Bool
  | [] => false
  | Item.typeDef _ :: _ => true
  | _ :: r => hasTypeDef r

/-- Whether an item list contains any object or variable declaration. -/
def hasVarDecl : List Item → Bool
  | [] => false
  | Item.varDecl _ :: _ => true
  | _ :: r => hasVarDecl r

/-- Whether an item list contains any function definition (a body). -/
def hasFunDef : List Item → Bool
  | [] => false
  | Item.funDef _ :: _ => true
  | _ :: r => hasFunDef r

/-- Textual stripping of a source file: block comments and preprocessor
directive lines (`#if !defined`, `#ifdef`, `#endif`, `#define`, `#include`)
are removed and every other item is kept, with no conditional evaluated.
This is the reading "the file with comments and directives deleted". -/
def textualStrip : List Item → List Item
  | [] => []
  | Item.comment _ :: r => textualStrip r
  | Item.define _ :: r => textualStrip r
  | Item.includeFile _ :: r => textualStrip r
  | Item.ifNotDefinedD _ :: r => textualStrip r
  | Item.ifDefinedD _ :: r => textualStrip r
  | Item.endifD :: r => textualStrip r
  | x :: r => x :: textualStrip r

/-- The language standards against which a declaration is read.  `c17`
stands for C17 and every earlier C standard, in which an empty pair of
parentheses in a declarator leaves the number and types of the parameters
unspecified (C17 6.7.6.3p14), so such a declaration is not a prototype;
`c23` stands for C23, where `()` means the same as `(void)`; `cpp` is C++,
where `()` declares a function with no parameters. -/
inductive Lang where
  | c17
  | c23
  | cpp
deriving DecidableEq, Repr

/-- The number of parameters a parameter list declares. -/
def ParamList.arity : ParamList → Nat
  | .empty => 0
  | .voidList => 0
  | .types ps => ps.length

/-- Whether a declaration with this parameter list is a prototype in the
given language: in C17 and earlier, `()` carries no parameter information
and is not a prototype; in C23 and C++ it is a zero-parameter prototype. -/
def ParamList.isPrototypeIn (l : Lang) : ParamList → Bool
  | .empty =>
    match l with
    | .c17 => false
    | .c23 => true
    | .cpp => true
  | .voidList => true
  | .types _ => true

/-- Whether a declaration excludes every call with arguments in the given
language: that holds exactly when it is a prototype declaring zero
parameters.  A non-prototype declaration (empty parentheses in C17 and
earlier) constrains calls not at all, so it does not exclude them. -/
def FunDecl.rejectsArgCallsIn (l : Lang) (f : FunDecl) : Bool :=
  f.params.isPrototypeIn l && f.params.arity == 0

/-- A source file of the repository: its path, whether it is a C header,
and its embedded items. -/
structure RepoFile where
  path : String
  isHeader : Bool
  items : List Item
deriving DecidableEq, Repr

/-- The copy of hello.h present under `modules/learn-cgo/`. -/
def hello_h_file : RepoFile := ⟨"modules/learn-cgo/hello.h", true, hello_h_items⟩

/-- Modelled from the spec: the spec describes the repository source as "a
pair of near-duplicate C header files", "duplicate, slightly divergent
copies of the same header under one path", but only one copy is present
under the extracted source tree.  This second copy is therefore modelled
from the spec's words: the same header skeleton with a slight divergence in
its commentary (its first comment lacks the final line), under the same
directory; its file name is not recorded by the spec. -/
def hello_h_copy_file : RepoFile :=
  ⟨"modules/learn-cgo/hello (second copy).h", true,
    Item.ifNotDefinedD "learn_cgo" ::
      hello_h_body comment1.dropLast [] ++ [Item.endifD]⟩

/-- The source files of the repository, per the spec's description; the
first is embedded from `src/modules/learn-cgo/hello.h`, the second is
modelled from the spec (see `hello_h_copy_file`). -/
def repoSourceFiles : List RepoFile := [hello_h_file, hello_h_copy_file]

/-- The hypothetical variant of hello.h in which the comment line 28,
`#include "hello.h"`, is a genuine directive: the same items with a real
self-inclusion placed right after the first comment, inside the guard. -/
def hello_h_genuine : List Item :=
  Item.ifNotDefinedD "learn_cgo" ::
    hello_h_body comment1 [Item.includeFile "hello.h"] ++ [Item.endifD]

/-- A file environment in which `hello.h` names the self-including variant,
so that its `#include "hello.h"` re-enters the very same file. -/
def hello_env : FileEnv := [("hello.h", hello_h_genuine)]

/-- The three declarations hello.h contributes to a C translation unit. -/
def cDecls : List Item :=
  [Item.decl hello_from_c, Item.decl hello_from_cpp, Item.decl greet_user]

/-- The items hello.h contributes to a C++ translation unit: the same three
declarations, the last two wrapped in the `extern "C"` braces. -/
def cppDecls : List Item :=
  [ Item.decl hello_from_c, Item.linkageOpen, Item.decl hello_from_cpp,
    Item.decl greet_user, Item.linkageClose ]

/-- The item list hello.h contributes to a translation unit processed as
C++ (`__cplusplus` defined), extracted from the conditional-evaluation
pass. -/
def cppOutTU : List Item := (ppExpand ["__cplusplus"] 0 hello_h_items).2

/-- The item list hello.h contributes to a translation unit processed as C
(`__cplusplus` not defined). -/
def cOutTU : List Item := (ppExpand [] 0 hello_h_items).2

/-- Processing hello.h `n` times in a row within one translation unit
starting from macro environment `st`: the macro environment is threaded
through and the contributed items are concatenated in order. -/
def ppSeq : Nat → MacroEnv → MacroEnv × List Item
  | 0, st => (st, [])
  | n + 1, st =>
    ((ppSeq n (ppExpand st 0 hello_h_items).1).1,
      (ppExpand st 0 hello_h_items).2 ++
        (ppSeq n (ppExpand st 0 hello_h_items).1).2)

/-! ## Helper lemmas -/

/-- Conditional evaluation of hello.h from an arbitrary macro environment:
if the guard macro is already defined the file contributes nothing and the
environment is unchanged; otherwise the file defines `learn_cgo` and
contributes exactly its three declarations, with the `extern "C"` braces
present exactly when `__cplusplus` is defined. -/
lemma ppExpand_hello_h (st : MacroEnv) :
    ppExpand st 0 hello_h_items =
      if isDef st "learn_cgo" then (st, [])
      else if isDef st "__cplusplus" then ("learn_cgo" :: st, cppDecls)
      else ("learn_cgo" :: st, cDecls) := by
  by_cases h1 : isDef st "learn_cgo" = true <;>
    by_cases h2 : isDef st "__cplusplus" = true <;>
      simp [hello_h_items, hello_h_body, ppExpand, isDef, h1, h2, cDecls,
        cppDecls]

/-- With the guard macro already defined, hello.h expands to nothing. -/
lemma ppExpand_guarded (st : MacroEnv) (h : isDef st "learn_cgo" = true) :
    ppExpand st 0 hello_h_items = (st, []) := by
  rw [ppExpand_hello_h]; simp [h]

/-- After one pass over hello.h, the guard macro is defined. -/
lemma lcgo_in_after (st : MacroEnv) :
    isDef (ppExpand st 0 hello_h_items).1 "learn_cgo" = true := by
  rw [ppExpand_hello_h]
  by_cases h1 : isDef st "learn_cgo" = true <;>
    by_cases h2 : isDef st "__cplusplus" = true <;> simp [h1, h2, isDef]

/-- Unfolding of `ppSeq` at a successor. -/
lemma ppSeq_succ (n : Nat) (st : MacroEnv) :
    ppSeq (n + 1) st =
      ((ppSeq n (ppExpand st 0 hello_h_items).1).1,
        (ppExpand st 0 hello_h_items).2 ++
          (ppSeq n (ppExpand st 0 hello_h_items).1).2) := rfl

/-- Once the guard macro is defined, any further number of passes over
hello.h contributes nothing and leaves the environment unchanged. -/
lemma ppSeq_stable :
    ∀ (m : Nat) (st : MacroEnv), isDef st "learn_cgo" = true →
      ppSeq m st = (st, []) := by
  intro m
  induction m with
  | zero => intro st _; rfl
  | succ k ih =>
    intro st h
    rw [ppSeq_succ, ppExpand_guarded st h]
    simp [ih st h]

/-- On an item list with no `#include` directive, full preprocessing needs
no fuel and no file environment: it agrees with the conditional-evaluation
pass for every fuel, environment, macro state and skip depth. -/
lemma ppRun_eq_ppExpand (env : FileEnv) (fuel : Nat) :
    ∀ (items : List Item), hasInclude items = false →
      ∀ (st : MacroEnv) (skip : Nat),
        ppRun env fuel st skip items = some (ppExpand st skip items) := by
  intro items
  induction items with
  | nil => intro _ st skip; cases skip <;> simp [ppRun, ppExpand]
  | cons x r ih =>
    intro h st skip
    cases x <;> simp [hasInclude] at h <;> cases skip <;>
      simp [ppRun, ppExpand, ih h]

/-- Full preprocessing of the self-including variant of hello.h, in the
file environment that resolves `hello.h` to that very variant: one unit of
fuel suffices, because the nested inclusion re-enters the file with the
guard macro defined and the whole guarded region is skipped. -/
lemma ppRun_genuine (fuel : Nat) (st : MacroEnv) :
    ppRun hello_env (fuel + 1) st 0 hello_h_genuine =
      some (if isDef st "learn_cgo" then (st, [])
        else if isDef st "__cplusplus" then ("learn_cgo" :: st, cppDecls)
        else ("learn_cgo" :: st, cDecls)) := by
  by_cases h1 : isDef st "learn_cgo" = true <;>
    by_cases h2 : isDef st "__cplusplus" = true <;>
      simp [hello_h_genuine, hello_h_body, ppRun, isDef, h1, h2, hello_env,
        lookupFile, cDecls, cppDecls]

/-! ## Claims -/

/-- C1, counterexample: the claim that every function declaration of
hello.h falls inside an `extern "C"` region when the header is processed as
C++ is false at `hello_from_c`: in the C++-processed translation unit it is
among the declarations but not among those inside a linkage region (its
declaration on line 52 precedes the `extern "C"` block of lines 67-76), so
its symbol is subject to C++ name mangling. -/
theorem c1_hello_from_c_outside_linkage :
    hello_from_c ∈ declsOf cppOutTU ∧
      hello_from_c ∉ cLinkageDecls 0 cppOutTU := by
  constructor <;> decide

/-- C1 (corrected): of the three functions declared in hello.h, exactly
`hello_from_cpp` and `greet_user` fall inside the `extern "C"` region when
the header is processed as a C++ translation unit; `hello_from_c` is
declared outside every such region, so it alone is subject to C++ name
mangling there. -/
theorem c1_linkage_region :
    declsOf cppOutTU = [hello_from_c, hello_from_cpp, greet_user] ∧
      cLinkageDecls 0 cppOutTU = [hello_from_cpp, greet_user] := by
  constructor <;> decide

/-- C2: the include guard makes repeated processing of hello.h within one
translation unit equal to processing it once, from every starting macro
environment: the first pass defines `learn_cgo` (or finds it defined) and
every later pass contributes nothing. -/
theorem c2_include_guard (st : MacroEnv) (n : Nat) (h : 1 ≤ n) :
    ppSeq n st = ppSeq 1 st := by
  cases n with
  | zero => exact absurd h (by decide)
  | succ k =>
    have e2 := ppSeq_succ 0 st
    norm_num at e2
    rw [ppSeq_succ, e2, ppSeq_stable k _ (lcgo_in_after st),
      ppSeq_stable 0 _ (lcgo_in_after st)]

/-- C2, witness: three successive inclusions of hello.h from the empty
macro environment produce the same result as a single one. -/
theorem c2_include_guard_witness : 1 ≤ 3 ∧ ppSeq 3 [] = ppSeq 1 [] :=
  ⟨by decide, c2_include_guard [] 3 (by decide)⟩

/-- C3: hello.h contributes the same three function declarations to a C
translation unit and to a C++ one; erasing the `extern "C"` wrapper braces
from the C++ result yields exactly the C result, which itself carries no
brace, so the wrapper is the only difference. -/
theorem c3_c_cpp_agree :
    declsOf cppOutTU = declsOf cOutTU ∧
      eraseLinkage cppOutTU = cOutTU ∧
      eraseLinkage cOutTU = cOutTU ∧
      declsOf cOutTU = [hello_from_c, hello_from_cpp, greet_user] := by
  refine ⟨?_, ?_, ?_, ?_⟩ <;> decide

/-- C4, counterexample: the claim that `hello_from_c` is declared with a
prototype admitting no call with arguments in either C or C++ is false for
C as of C17: the declaration `void hello_from_c();` is among the
declarations hello.h contributes, its empty parentheses are not a prototype
in C17 (C17 6.7.6.3p14 leaves the parameters unspecified), and it does not
exclude calls with arguments there. -/
theorem c4_empty_parens_not_a_c17_prototype :
    hello_from_c ∈ declsOf cOutTU ∧
      ParamList.isPrototypeIn Lang.c17 hello_from_c.params = false ∧
      hello_from_c.rejectsArgCallsIn Lang.c17 = false := by
  refine ⟨?_, ?_, ?_⟩ <;> decide

/-- C4 (corrected): the declared interface types are as the spec states -
`hello_from_c` and `hello_from_cpp` are declared with an empty parameter
list and `greet_user` with exactly one parameter of type `const char *`,
all returning `void` - and in C++ (and in C23) the two empty-parameter
declarations are prototypes admitting no call with arguments; in C17 and
earlier, however, the empty parentheses leave the parameters unspecified,
so those declarations do not exclude argument-bearing calls there. -/
theorem c4_declared_interface_types :
    hello_from_c.ret = CType.void ∧
      hello_from_c.params = ParamList.empty ∧
      hello_from_cpp.ret = CType.void ∧
      hello_from_cpp.params = ParamList.empty ∧
      greet_user.ret = CType.void ∧
      greet_user.params = ParamList.types [(CType.constCharPtr, "name")] ∧
      hello_from_c.rejectsArgCallsIn Lang.cpp = true ∧
      hello_from_c.rejectsArgCallsIn Lang.c23 = true ∧
      hello_from_cpp.rejectsArgCallsIn Lang.cpp = true ∧
      hello_from_cpp.rejectsArgCallsIn Lang.c23 = true := by
  repeat' constructor

/-- C5: the repository's source is a pair of header files under the
`modules/learn-cgo` path - the embedded hello.h and its spec-modelled
near-duplicate - which diverge (here: in comment text) yet strip to the
same declarations, and each carries the tutorial commentary about building
and linking libraries. -/
theorem c5_pair_of_near_duplicate_headers :
    repoSourceFiles.length = 2 ∧
      (repoSourceFiles.all fun f => f.isHeader) = true ∧
      hello_h_file.path = "modules/learn-cgo/hello.h" ∧
      hello_h_copy_file.path = "modules/learn-cgo/hello (second copy).h" ∧
      hello_h_copy_file.items ≠ hello_h_file.items ∧
      textualStrip hello_h_copy_file.items = textualStrip hello_h_file.items ∧
      "(PIC) gcc -fPIC -c hello.c -o hello.o" ∈
        commentLines hello_h_file.items ∧
      "(PIC) gcc -fPIC -c hello.c -o hello.o" ∈
        commentLines hello_h_copy_file.items ∧
      "#    ar rcs libcommon.a hello.o helloCpp.o" ∈
        commentLines hello_h_file.items ∧
      "#    ar rcs libcommon.a hello.o helloCpp.o" ∈
        commentLines hello_h_copy_file.items := by
  refine ⟨?_, ?_, ?_, ?_, ?_, ?_, ?_, ?_, ?_, ?_⟩ <;> decide

/-- C6: the functions declared in hello.h are exactly `hello_from_c`,
`hello_from_cpp` and `greet_user`, and no source file of the repository
provides a definition (a body) for any of them - indeed none contains any
function definition at all. -/
theorem c6_no_function_bodies :
    (declsOf (textualStrip hello_h_items)).map FunDecl.name =
        ["hello_from_c", "hello_from_cpp", "greet_user"] ∧
      (repoSourceFiles.all fun f =>
        !providesDef "hello_from_c" f.items &&
        !providesDef "hello_from_cpp" f.items &&
        !providesDef "greet_user" f.items) = true ∧
      (repoSourceFiles.all fun f => !hasFunDef f.items) = true := by
  refine ⟨?_, ?_, ?_⟩ <;> decide

/-- C7, counterexample: after stripping comments and preprocessor
directives from hello.h, the remaining content is not just the three
function prototypes - the `extern "C"` linkage braces of lines 68 and 75
remain as well, so the claim as stated is false. -/
theorem c7_strip_leaves_linkage_braces :
    textualStrip hello_h_items ≠
      [Item.decl hello_from_c, Item.decl hello_from_cpp,
        Item.decl greet_user] := by
  decide

/-- C7 (corrected): hello.h defines no data model - no type definition, no
object or variable declaration, no function body - and after stripping
comments and preprocessor directives its entire content is the three
function prototypes together with the `extern "C"` linkage braces that wrap
the last two. -/
theorem c7_no_data_model :
    hasTypeDef hello_h_items = false ∧
      hasVarDecl hello_h_items = false ∧
      hasFunDef hello_h_items = false ∧
      textualStrip hello_h_items =
        [Item.decl hello_from_c, Item.linkageOpen, Item.decl hello_from_cpp,
          Item.decl greet_user, Item.linkageClose] := by
  refine ⟨?_, ?_, ?_, ?_⟩ <;> decide

/-- C8: hello.h contains no `#include` directive at all - the four
directive-looking lines 27-30 (`#cgo LDFLAGS: ...`, `#include "hello.h"`,
`#include <math.h>`, `#include <stdlib.h>`) are comment text - and from
every macro environment, processing hello.h changes the environment only by
defining `learn_cgo` (nothing at all when it is already defined) and
contributes only the three declarations, with the `extern "C"` braces when
`__cplusplus` is defined. -/
theorem c8_inclusion_frame :
    hasInclude hello_h_items = false ∧
      "#cgo LDFLAGS: -lm -L. -lcommon" ∈ commentLines hello_h_items ∧
      "#include \"hello.h\"" ∈ commentLines hello_h_items ∧
      "#include <math.h>" ∈ commentLines hello_h_items ∧
      "#include <stdlib.h> // Required for free()" ∈
        commentLines hello_h_items ∧
      ∀ st : MacroEnv, ppExpand st 0 hello_h_items =
        if isDef st "learn_cgo" then (st, [])
        else if isDef st "__cplusplus" then ("learn_cgo" :: st, cppDecls)
        else ("learn_cgo" :: st, cDecls) :=
  ⟨by decide, by decide, by decide, by decide, by decide, ppExpand_hello_h⟩

/-- C8, witness: from the empty macro environment, processing hello.h
defines exactly `learn_cgo` and contributes exactly the three
declarations. -/
theorem c8_inclusion_frame_witness :
    ppExpand [] 0 hello_h_items = (["learn_cgo"], cDecls) := by
  have h := c8_inclusion_frame.2.2.2.2.2 []
  simpa [isDef] using h

/-- C9: preprocessing hello.h terminates - with no inclusion to resolve it
needs no fuel at all, for every fuel, macro environment and skip depth; the
`#include "hello.h"` of line 28 is comment content and hello.h contains no
include directive; and even the variant of hello.h in which that line is a
genuine self-inclusion terminates for every fuel of at least one: the
re-entered copy finds `learn_cgo` defined and expands to nothing, so the
full expansion from the empty environment still yields exactly the three
declarations. -/
theorem c9_no_recursive_inclusion :
    hasInclude hello_h_items = false ∧
      "#include \"hello.h\"" ∈ commentLines hello_h_items ∧
      (∀ (env : FileEnv) (fuel : Nat) (st : MacroEnv) (skip : Nat),
        (ppRun env fuel st skip hello_h_items).isSome = true) ∧
      (∀ (fuel : Nat) (st : MacroEnv),
        (ppRun hello_env (fuel + 1) st 0 hello_h_genuine).isSome = true) ∧
      ppRun hello_env 1 ["learn_cgo"] 0 hello_h_genuine =
        some (["learn_cgo"], []) ∧
      ppRun hello_env 1 [] 0 hello_h_genuine =
        some (["learn_cgo"], cDecls) := by
  refine ⟨by decide, by decide, ?_, ?_, ?_, ?_⟩
  · intro env fuel st skip
    rw [ppRun_eq_ppExpand env fuel hello_h_items (by decide) st skip]
    rfl
  · intro fuel st
    rw [ppRun_genuine fuel st]
    rfl
  · have h := ppRun_genuine 0 ["learn_cgo"]
    norm_num at h
    simpa [isDef] using h
  · have h := ppRun_genuine 0 []
    norm_num at h
    simpa [isDef] using h

/-- C9, witness: the self-including variant of hello.h is fully expanded
with one unit of fuel from a one-entry macro environment. -/
theorem c9_no_recursive_inclusion_witness :
    (ppRun hello_env 1 ["x"] 0 hello_h_genuine).isSome = true := by
  have h := c9_no_recursive_inclusion.2.2.2.1 0 ["x"]
  norm_num at h
  exact h

end LearnCgo
